import Mathlib

/-!
Verification of the Trinnov integration driver (`intg-trinnov`).

This file shallowly embeds the parts of the Python sources that the
specification's claims are about:

* `registry.py` — the device registry (`register_device`, `unregister_device`,
  `get_device`), modelled as an insertion-ordered association list, which is
  how a Python `dict` behaves for the operations used here;
* `device.py` — `TrinnovDevice`: the volume percent/dB conversions, the
  telemetry handlers (`handle_volume`, `handle_source`, ...), the
  connection-state handler and `disconnect`, and `_execute_command`;
* `media_player.py`, `sensor.py`, `remote.py` — the entity adapters'
  `filter_changed_attributes` and the media player's SELECT_SOURCE command
  branch.

Python floats are modelled as exact rationals (every value the claims touch
is produced by a linear map on small decimal constants, where IEEE doubles
and rationals agree); Python `int()` truncation is `pyInt`; Python dicts are
insertion-ordered association lists with overwrite-in-place assignment.
-/

/-- ucapi.media_player.States (external enum referenced by the sources). -/
inductive MState where
  | on | off | standby | playing | paused | buffering | unavailable | unknown
deriving DecidableEq, Repr

/-- ucapi.remote.States (external enum referenced by the sources). -/
inductive RState where
  | on | off | unavailable | unknown
deriving DecidableEq, Repr

/-- ucapi.sensor.States (external enum referenced by the sources). -/
inductive SState where
  | on | unavailable | unknown
deriving DecidableEq, Repr

/-- Python values as they occur in the attribute dictionaries and telemetry
events of this integration: `None`, strings, ints, floats (as exact
rationals), bools, lists of strings, and the ucapi state enums. -/
inductive Value where
  | none
  | str (s : String)
  | int (n : Int)
  | rat (q : ℚ)
  | bool (b : Bool)
  | strList (l : List String)
  | mState (s : MState)
  | rState (s : RState)
  | sState (s : SState)
deriving DecidableEq, Repr

/-- ucapi.StatusCodes (the four codes this integration returns). -/
inductive StatusCodes where
  | ok | badRequest | notImplemented | serviceUnavailable
deriving DecidableEq, Repr

/-! ## Python dict operations (insertion-ordered association lists) -/

/-- A Python `dict` with string keys, as an insertion-ordered assoc list. -/
abbrev Dict := List (String × Value)

/-- `d.get(k)` / `d[k]` read access. -/
def dget (d : Dict) (k : String) : Option Value :=
  (d.find? (fun p => p.1 = k)).map (fun p => p.2)

/-- `k in d` membership test. -/
def dmem (d : Dict) (k : String) : Bool :=
  d.any (fun p => p.1 = k)

/-- `d[k] = v` assignment: overwrites in place if the key exists (Python
dicts keep the original insertion position), else appends. -/
def dset (d : Dict) (k : String) (v : Value) : Dict :=
  match d with
  | [] => [(k, v)]
  | p :: rest => if p.1 = k then (k, v) :: rest else p :: dset rest k v

/-! ## registry.py -/

/-- `registry.get_device`: `_configured_trinnovs.get(device_id)`. -/
def get_device {α : Type} (reg : List (String × α)) (device_id : String) : Option α :=
  (reg.find? (fun p => p.1 = device_id)).map (fun p => p.2)

/-- `registry.register_device`: insert only when `device_id` is not already a
key (`if device_id not in _configured_trinnovs`). -/
def register_device {α : Type} (reg : List (String × α)) (device_id : String) (device : α) :
    List (String × α) :=
  if reg.any (fun p => p.1 = device_id) then reg else reg ++ [(device_id, device)]

/-- `registry.unregister_device`: `_configured_trinnovs.pop(device_id, None)`
removes the entry for the key when present, otherwise does nothing. -/
def unregister_device {α : Type} (reg : List (String × α)) (device_id : String) :
    List (String × α) :=
  reg.eraseP (fun p => p.1 = device_id)

theorem find?_isSome_of_get {α : Type} (reg : List (String × α)) (id : String) (s : α)
    (h : get_device reg id = some s) :
    reg.any (fun p => p.1 = id) = true := by
  unfold get_device at h
  cases hf : reg.find? (fun p => p.1 = id) with
  | none => rw [hf] at h; simp at h
  | some p =>
    have := List.find?_some hf
    have hmem := List.mem_of_find?_eq_some hf
    exact List.any_eq_true.mpr ⟨p, hmem, this⟩

/-- C8: re-registering an existing id is a no-op (first registration wins),
and unregistering an absent id leaves the registry unchanged. -/
theorem registry_register_unregister_props {α : Type} (reg : List (String × α))
    (id : String) (s1 s2 : α) (h1 : get_device reg id = some s1) :
    register_device reg id s2 = reg ∧ get_device (register_device reg id s2) id = some s1 ∧
      (∀ (reg2 : List (String × α)) (id2 : String), get_device reg2 id2 = none →
        unregister_device reg2 id2 = reg2) := by
  have hany := find?_isSome_of_get reg id s1 h1
  have hreg : register_device reg id s2 = reg := by
    unfold register_device
    simp [hany]
  refine ⟨hreg, by rw [hreg]; exact h1, ?_⟩
  intro reg2 id2 h2
  unfold unregister_device
  apply List.eraseP_of_forall_not
  intro a ha
  simp only [decide_eq_true_eq]
  intro hk
  unfold get_device at h2
  cases hf : reg2.find? (fun p => p.1 = id2) with
  | none =>
    have := List.find?_eq_none.mp hf a ha
    simp [hk] at this
  | some p => rw [hf] at h2; simp at h2

/-- Witness for C8 at a concrete registry. -/
theorem registry_register_unregister_props_witness :
    get_device [("dev1", 10), ("dev2", 20)] "dev1" = some 10 ∧
      register_device [("dev1", 10), ("dev2", 20)] "dev1" 99 = [("dev1", 10), ("dev2", 20)] ∧
      get_device (register_device [("dev1", 10), ("dev2", 20)] "dev1" 99) "dev1" = some 10 ∧
      unregister_device [("dev1", 10), ("dev2", 20)] "absent" = [("dev1", 10), ("dev2", 20)] := by
  have h1 : get_device [("dev1", 10), ("dev2", 20)] "dev1" = some 10 := by decide
  have h := registry_register_unregister_props [("dev1", 10), ("dev2", 20)] "dev1" 10 99 h1
  exact ⟨h1, h.1, h.2.1, h.2.2 [("dev1", 10), ("dev2", 20)] "absent" (by decide)⟩

/-! ## device.py — volume percent/dB conversion -/

/-- Python `int()` applied to a float: truncation toward zero. -/
def pyInt (q : ℚ) : Int :=
  if 0 ≤ q then ⌊q⌋ else -⌊-q⌋

/-- `TrinnovDevice.volume_percent`: percentage (0 to 100) of a raw dB volume
on the scale min_db = -100.0, max_db = 0.0, clamped and truncated by
`int(max(0.0, min(100.0, percent)))`. -/
def volume_percent (raw_db : ℚ) : Int :=
  let min_db : ℚ := -100
  let max_db : ℚ := 0
  let percent : ℚ := ((raw_db - min_db) / (max_db - min_db)) * 100
  pyInt (max 0 (min 100 percent))

/-- `TrinnovDevice.percent_to_db`: clamp the integer percent to [0, 100] and
map linearly onto [-100.0, 0.0] dB. -/
def percent_to_db (percent : Int) : ℚ :=
  let min_db : ℚ := -100
  let max_db : ℚ := 0
  let p : Int := max 0 (min 100 percent)
  ((p : ℚ) / 100) * (max_db - min_db) + min_db

theorem volume_percent_formula (db : ℚ) :
    volume_percent db = pyInt (max 0 (min 100 (db + 100))) := by
  have h : ((db - (-100 : ℚ)) / ((0 : ℚ) - (-100))) * 100 = db + 100 := by
    field_simp
  simp only [volume_percent]
  rw [h]

/-- C2: the dB/percent maps are inverse on integer percents in [0, 100], and
the dB-to-percent map clamps below -100 dB to 0% and above 0 dB to 100%
(in particular -150 dB gives 0% and 50 dB gives 100%). -/
theorem volume_percent_roundtrip_and_clamp (p : Int) (h0 : 0 ≤ p) (h1 : p ≤ 100) :
    volume_percent (percent_to_db p) = p ∧
      (∀ db : ℚ, db < -100 → volume_percent db = 0) ∧
      (∀ db : ℚ, 0 < db → volume_percent db = 100) ∧
      volume_percent (-150) = 0 ∧ volume_percent 50 = 100 := by
  have hlow : ∀ db : ℚ, db < -100 → volume_percent db = 0 := by
    intro db hdb
    rw [volume_percent_formula]
    have hmin : min 100 (db + 100) = db + 100 := by
      apply min_eq_right; linarith
    have hmax : max 0 (db + 100) = 0 := by
      apply max_eq_left; linarith
    rw [hmin, hmax]
    simp [pyInt]
  have hhigh : ∀ db : ℚ, 0 < db → volume_percent db = 100 := by
    intro db hdb
    rw [volume_percent_formula]
    have hmin : min 100 (db + 100) = 100 := by
      apply min_eq_left; linarith
    have hmax : max (0 : ℚ) 100 = 100 := by norm_num
    rw [hmin, hmax]
    simp [pyInt]
  refine ⟨?_, hlow, hhigh, hlow (-150) (by norm_num), hhigh 50 (by norm_num)⟩
  have hdb : percent_to_db p = (p : ℚ) - 100 := by
    simp only [percent_to_db]
    have hp : max 0 (min 100 p) = p := by omega
    rw [hp]
    ring
  rw [hdb, volume_percent_formula]
  have hsum : (p : ℚ) - 100 + 100 = (p : ℚ) := by ring
  rw [hsum]
  have hc0 : (0 : ℚ) ≤ (p : ℚ) := by exact_mod_cast h0
  have hc1 : (p : ℚ) ≤ 100 := by exact_mod_cast h1
  rw [min_eq_right hc1, max_eq_right hc0]
  simp [pyInt, hc0, Int.floor_intCast]

/-- Witness for C2 at percent 37. -/
theorem volume_percent_roundtrip_and_clamp_witness :
    (0 : Int) ≤ 37 ∧ (37 : Int) ≤ 100 ∧
      (volume_percent (percent_to_db 37) = 37 ∧
        (∀ db : ℚ, db < -100 → volume_percent db = 0) ∧
        (∀ db : ℚ, 0 < db → volume_percent db = 100) ∧
        volume_percent (-150) = 0 ∧ volume_percent 50 = 100) :=
  ⟨by decide, by decide, volume_percent_roundtrip_and_clamp 37 (by decide) (by decide)⟩

/-! ## device.py — TrinnovDevice state, telemetry handlers, connection events -/

/-- The mutable state of a `TrinnovDevice` relevant to the claims: the
connection flags set in `__init__` (lines 87-99) and the cached attribute
values.  `wait_task` records whether a reconnect/wait task handle is live. -/
structure DeviceState where
  device_id : String
  connected : Bool
  wait_task : Bool
  was_intentional_disconnect : Bool
  attr_state : MState
  attr_volume : ℚ
  attr_audio_sync : Value
  attr_srate : String
  attr_input_labels : List (String × String)
  attr_sound_modes : List (String × String)
  attr_muted : Bool
deriving DecidableEq, Repr

/-- Events the device object emits on its `AsyncIOEventEmitter`: a named
notification (CONNECTED / DISCONNECTED) or an `Events.UPDATE` carrying an
entity id and a one-key attribute dict. -/
inductive Emitted where
  | notify (event : String) (deviceId : String)
  | update (entityId : String) (attr : String) (value : Value)
deriving DecidableEq, Repr

/-- `TrinnovDevice._emit_update`: entity id is `f"{prefix}.{self.device_id}"`
and the payload is the one-entry dict `{attr: value}`. -/
def emit_update (s : DeviceState) (entity attr : String) (v : Value) : Emitted :=
  .update (entity ++ "." ++ s.device_id) attr v

/-- `TrinnovDevice._handle_audio_sync`: emit and cache only on change. -/
def handle_audio_sync (s : DeviceState) (audio_sync : Value) : DeviceState × List Emitted :=
  if audio_sync ≠ s.attr_audio_sync then
    ({ s with attr_audio_sync := audio_sync },
      [emit_update s "audio_sync" "value" audio_sync])
  else (s, [])

/-- `TrinnovDevice._handle_input_labels`: unconditionally cache the label
table and emit the media-player SOURCE_LIST (the dict's values). -/
def handle_input_labels (s : DeviceState) (labels : List (String × String)) :
    DeviceState × List Emitted :=
  ({ s with attr_input_labels := labels },
    [emit_update s "media_player" "source_list" (.strList (labels.map (fun p => p.2)))])

/-- `TrinnovDevice._handle_sound_mode_list`: unconditionally emit the
media-player SOUND_MODE_LIST; the cache field is not touched. -/
def handle_sound_mode_list (s : DeviceState) (sound_modes : Value) :
    DeviceState × List Emitted :=
  (s, [emit_update s "media_player" "sound_mode_list" sound_modes])

/-- `TrinnovDevice._handle_source`: unconditionally emit the media-player
SOURCE; nothing is cached or compared. -/
def handle_source (s : DeviceState) (source : Value) : DeviceState × List Emitted :=
  (s, [emit_update s "media_player" "source" source])

/-- The string `f"{float(value)/1000}"` computed by `_handle_srate`
(rendered via Lean's rational printer; only injectivity on the values
compared matters for the claims). -/
def srate_string (value : ℚ) : String :=
  toString (value / 1000)

/-- `TrinnovDevice._handle_srate`: convert Hz to a kHz display string, then
emit and cache only when the string changed. -/
def handle_srate (s : DeviceState) (value : ℚ) : DeviceState × List Emitted :=
  let srate := srate_string value
  if srate ≠ s.attr_srate then
    ({ s with attr_srate := srate }, [emit_update s "sample_rate" "value" (.str srate)])
  else (s, [])

/-- `TrinnovDevice._handle_upmixer`: unconditionally emit the media-player
SOUND_MODE; nothing is cached or compared. -/
def handle_upmixer (s : DeviceState) (upmixer : Value) : DeviceState × List Emitted :=
  (s, [emit_update s "media_player" "sound_mode" upmixer])

/-- `TrinnovDevice._handle_volume`: on change, cache the dB value and emit
both the volume sensor VALUE and the media-player VOLUME percentage. -/
def handle_volume (s : DeviceState) (volume : ℚ) : DeviceState × List Emitted :=
  if volume ≠ s.attr_volume then
    ({ s with attr_volume := volume },
      [emit_update s "volume" "value" (.rat volume),
        emit_update s "media_player" "volume" (.int (volume_percent volume))])
  else (s, [])

/-- `TrinnovDevice._handle_mute`: on change, cache and emit both the muted
sensor VALUE and the media-player MUTED flag. -/
def handle_mute (s : DeviceState) (muted : Bool) : DeviceState × List Emitted :=
  if muted ≠ s.attr_muted then
    ({ s with attr_muted := muted },
      [emit_update s "muted" "value" (.bool muted),
        emit_update s "media_player" "muted" (.bool muted)])
  else (s, [])

/-- `TrinnovDevice.disconnect`: acts only when connected or a wait task is in
flight; cancels the wait task and closes the underlying session.  It does not
touch `_was_intentional_disconnect`. -/
def disconnect (s : DeviceState) : DeviceState :=
  if s.connected || s.wait_task then { s with wait_task := false } else s

/-- The per-device body of `registry.disconnect_all` (registry.py lines
78-80): set `_was_intentional_disconnect = True`, then `disconnect()`. -/
def disconnect_all_step (s : DeviceState) : DeviceState :=
  disconnect { s with was_intentional_disconnect := true }

/-- `pytrinnov` ConnectionStatus values delivered to the handler. -/
inductive ConnStatus where
  | connected | disconnected | other
deriving DecidableEq, Repr

/-- The six baseline updates of the DISCONNECTED branch. -/
def disconnected_updates (s : DeviceState) : List Emitted :=
  [emit_update s "media_player" "state" (.mState .off),
    emit_update s "remote" "state" (.rState .off),
    emit_update s "sample_rate" "state" (.sState .unavailable),
    emit_update s "audio_sync" "state" (.sState .unavailable),
    emit_update s "volume" "state" (.sState .unavailable),
    emit_update s "muted" "state" (.sState .unavailable)]

/-- The five baseline updates of the CONNECTED branch (device.py lines
396-402); note the dict has no entry for the muted sensor. -/
def connected_updates (s : DeviceState) : List Emitted :=
  [emit_update s "media_player" "state" (.mState .on),
    emit_update s "remote" "state" (.rState .on),
    emit_update s "sample_rate" "state" (.sState .on),
    emit_update s "audio_sync" "state" (.sState .on),
    emit_update s "volume" "state" (.sState .on)]

/-- `TrinnovDevice._handle_connection_state`: returns the new state, the
emitted events in order, and whether a reconnect task was scheduled (the
`asyncio.create_task(self.connect())` after the 20s cooldown). -/
def handle_connection_state (s : DeviceState) (state : ConnStatus) :
    DeviceState × List Emitted × Bool :=
  match state with
  | .disconnected =>
    let s2 := { s with connected := false, attr_state := MState.off }
    (s2, Emitted.notify "DISCONNECTED" s2.device_id :: disconnected_updates s2,
      !s2.was_intentional_disconnect)
  | .connected =>
    let s2 := { s with connected := true, attr_state := MState.on,
                       was_intentional_disconnect := false }
    (s2, Emitted.notify "CONNECTED" s2.device_id :: connected_updates s2, false)
  | .other => (s, [], false)

/-- A concrete device state matching `TrinnovDevice.__init__` defaults except
for a live connection and a populated source-label table. -/
def sample_state : DeviceState :=
  { device_id := "trinnov1"
    connected := true
    wait_task := false
    was_intentional_disconnect := false
    attr_state := MState.on
    attr_volume := -20
    attr_audio_sync := Value.bool false
    attr_srate := "unknown"
    attr_input_labels := [("0", "HDMI1"), ("1", "HDMI2")]
    attr_sound_modes := [("a", "Dolby"), ("b", "DTS")]
    attr_muted := false }

/-- C1 counterexample: after an explicit `disconnect()` on a connected device
whose intentional-disconnect flag was never set (nothing inside
`TrinnovDevice.disconnect` sets it), the DISCONNECTED event handler still
schedules a reconnect. -/
theorem disconnect_alone_still_schedules_reconnect :
    (handle_connection_state (disconnect sample_state) ConnStatus.disconnected).2.2 = true := by
  rfl

/-- C1 as amended: scheduling of the reconnect is governed solely by the
intentional-disconnect flag, which `disconnect()` itself never sets — the
DISCONNECTED handler schedules a reconnect exactly when the flag is unset,
and only the `registry.disconnect_all` path (which sets the flag before
calling `disconnect()`) suppresses the reconnect. -/
theorem reconnect_suppressed_iff_flag_set (s : DeviceState) :
    (disconnect s).was_intentional_disconnect = s.was_intentional_disconnect ∧
      (handle_connection_state s ConnStatus.disconnected).2.2 =
        !s.was_intentional_disconnect ∧
      (handle_connection_state (disconnect_all_step s) ConnStatus.disconnected).2.2 = false := by
  refine ⟨?_, rfl, ?_⟩
  · unfold disconnect
    split <;> rfl
  · unfold disconnect_all_step disconnect
    split <;> rfl

/-- Witness for C1 (amended) at a concrete state. -/
theorem reconnect_suppressed_iff_flag_set_witness :
    (disconnect sample_state).was_intentional_disconnect = false ∧
      (handle_connection_state sample_state ConnStatus.disconnected).2.2 = true ∧
      (handle_connection_state (disconnect_all_step sample_state)
        ConnStatus.disconnected).2.2 = false := by
  have h := reconnect_suppressed_iff_flag_set sample_state
  exact ⟨h.1, h.2.1, h.2.2⟩

/-- C3 counterexample: the input-labels handler caches the table but always
emits, so delivering a label table equal to the cached one still produces a
normalized SOURCE_LIST update event. -/
theorem input_labels_repeat_still_emits :
    (handle_input_labels sample_state sample_state.attr_input_labels).2 ≠ [] := by
  decide

/-- C3 as amended: only the audio-sync, sample-rate, volume, and mute
handlers suppress repeated values (a second delivery of the same value leaves
the cache unchanged and emits nothing — in particular the same volume twice
emits update events only for the first delivery); the source, input-label,
sound-mode-list, and upmixer handlers emit a normalized update event
unconditionally. -/
theorem dedup_handlers_suppress_repeats (s : DeviceState) (v src modes upx : Value)
    (hz vol : ℚ) (b : Bool) :
    handle_audio_sync (handle_audio_sync s v).1 v = ((handle_audio_sync s v).1, []) ∧
      handle_srate (handle_srate s hz).1 hz = ((handle_srate s hz).1, []) ∧
      handle_volume (handle_volume s vol).1 vol = ((handle_volume s vol).1, []) ∧
      handle_mute (handle_mute s b).1 b = ((handle_mute s b).1, []) ∧
      (handle_source s src).2 ≠ [] ∧
      (handle_upmixer s upx).2 ≠ [] ∧
      (handle_sound_mode_list s modes).2 ≠ [] ∧
      (handle_input_labels s s.attr_input_labels).2 ≠ [] := by
  refine ⟨?_, ?_, ?_, ?_, ?_, ?_, ?_, ?_⟩
  · by_cases h : v = s.attr_audio_sync <;> simp [handle_audio_sync, h]
  · by_cases h : srate_string hz = s.attr_srate <;> simp [handle_srate, h]
  · by_cases h : vol = s.attr_volume <;> simp [handle_volume, h]
  · by_cases h : b = s.attr_muted <;> simp [handle_mute, h]
  · simp [handle_source]
  · simp [handle_upmixer]
  · simp [handle_sound_mode_list]
  · simp [handle_input_labels]

/-- Helper for the C4 counterexample: is `e` an attribute update addressed to
the entity `prefixName.<device_id>`? -/
def is_update_for (prefixName : String) (s : DeviceState) (e : Emitted) : Bool :=
  match e with
  | .update entityId _ _ => entityId = prefixName ++ "." ++ s.device_id
  | .notify _ _ => false

/-- C4 counterexample: handling CONNECTED emits no baseline attribute update
for the muted sensor entity — the CONNECTED updates dict covers only the
media player, the remote, and the sample-rate, audio-sync, and volume
sensors. -/
theorem connected_entry_omits_muted_sensor :
    ¬ ∃ e ∈ (handle_connection_state sample_state ConnStatus.connected).2.1,
      is_update_for "muted" sample_state e = true := by
  decide

/-- C4 as amended: the CONNECTED handler clears the intentional-disconnect
flag, marks the session connected, and emits a "connected" notification
followed by baseline state-on updates for the media-player entity, the
remote entity, and three sensor entities (sample rate, audio sync, volume);
the muted sensor receives no baseline update. -/
theorem connected_entry_props (s : DeviceState) :
    (handle_connection_state s ConnStatus.connected).1.was_intentional_disconnect = false ∧
      (handle_connection_state s ConnStatus.connected).1.connected = true ∧
      (handle_connection_state s ConnStatus.connected).1.attr_state = MState.on ∧
      (handle_connection_state s ConnStatus.connected).2.1 =
        [Emitted.notify "CONNECTED" s.device_id,
          Emitted.update ("media_player." ++ s.device_id) "state" (.mState .on),
          Emitted.update ("remote." ++ s.device_id) "state" (.rState .on),
          Emitted.update ("sample_rate." ++ s.device_id) "state" (.sState .on),
          Emitted.update ("audio_sync." ++ s.device_id) "state" (.sState .on),
          Emitted.update ("volume." ++ s.device_id) "state" (.sState .on)] := by
  refine ⟨rfl, rfl, rfl, rfl⟩

/-! ## device.py — `_execute_command` -/

/-- The `parms` argument of `_execute_command`: a scalar, a tuple/list, a
keyword dict, or `None` (the default). -/
inductive Parms where
  | noneP
  | scalar (v : Value)
  | tuple (l : List Value)
  | dict (d : List (String × Value))
deriving DecidableEq, Repr

/-- An executor capability: its positional parameter names (`self` excluded,
as in `inspect.signature` of a bound method; defaults are not used by this
executor surface) and whether its body raises `ValueError` when invoked. -/
structure ExecMethod where
  params : List String
  raisesValueError : Bool
deriving DecidableEq, Repr

/-- A Python exception escaping `_execute_command` uncaught. -/
inductive PyExc where
  | typeError
deriving DecidableEq, Repr

/-- Outcome of invoking a capability. -/
inductive PyOutcome where
  | ok | valueError | typeError
deriving DecidableEq, Repr

def listNodup (l : List String) : Bool :=
  match l with
  | [] => true
  | x :: xs => !xs.contains x && listNodup xs

/-- Python call binding without defaults: the positional arguments fill the
leading parameters, and each keyword must name a distinct one of the
remaining parameters, leaving none unfilled; any mismatch raises
`TypeError`. -/
def bindOk (m : ExecMethod) (args : List Value) (kwargs : List (String × Value)) : Bool :=
  let names := kwargs.map (fun p => p.1)
  decide (args.length + kwargs.length = m.params.length) &&
    listNodup names &&
    names.all (fun n => (m.params.drop args.length).contains n)

/-- Invoke a capability on bound arguments. -/
def invoke (m : ExecMethod) (args : List Value) (kwargs : List (String × Value)) : PyOutcome :=
  if bindOk m args kwargs then
    (if m.raisesValueError then .valueError else .ok)
  else .typeError

/-- The outcome of the parameter-unpacking branch of `_execute_command`
(lines 267-276): a zero-parameter signature is called bare; list/tuple parms
are splatted positionally; dict parms are splatted as keywords; anything
else (including `None`) is passed as a single positional argument. -/
def dispatch_outcome (m : ExecMethod) (parms : Parms) : PyOutcome :=
  if m.params.length = 0 then invoke m [] []
  else
    match parms with
    | .tuple l => invoke m l []
    | .dict d => invoke m [] d
    | .scalar v => invoke m [v] []
    | .noneP => invoke m [Value.none] []

/-- `TrinnovDevice._execute_command`: resolve the command on the executor
(`getattr`, NOT_IMPLEMENTED when absent), bind and invoke it, return OK on
success; only `ValueError` is caught and turned into BAD_REQUEST — any
`TypeError` from a shape mismatch escapes as an exception. -/
def execute_command (executor : List (String × ExecMethod)) (command : String)
    (parms : Parms) : Except PyExc StatusCodes :=
  match (executor.find? (fun p => p.1 = command)).map (fun p => p.2) with
  | Option.none => .ok .notImplemented
  | Option.some m =>
    match dispatch_outcome m parms with
    | .ok => .ok .ok
    | .valueError => .ok .badRequest
    | .typeError => .error .typeError

theorem execute_command_resolved (executor : List (String × ExecMethod))
    (command : String) (parms : Parms) (m : ExecMethod)
    (hm : (executor.find? (fun p => p.1 = command)).map (fun p => p.2) = some m) :
    execute_command executor command parms =
      (match dispatch_outcome m parms with
        | .ok => Except.ok StatusCodes.ok
        | .valueError => Except.ok StatusCodes.badRequest
        | .typeError => Except.error PyExc.typeError) := by
  unfold execute_command
  rw [hm]

/-- C5 counterexample: dispatching `volume` (one positional parameter) with a
two-element tuple is a shape mismatch, and `_execute_command` lets the
`TypeError` escape as an exception — which is not the BAD_REQUEST status. -/
theorem shape_mismatch_raises_not_bad_request :
    execute_command [("volume", { params := ["db"], raisesValueError := false })]
        "volume" (Parms.tuple [Value.rat 1, Value.rat 2]) =
      Except.error PyExc.typeError ∧
      (Except.error PyExc.typeError : Except PyExc StatusCodes) ≠
        Except.ok StatusCodes.badRequest := by
  refine ⟨rfl, ?_⟩
  simp

/-- C5 as amended: for a resolved command, a parameter shape mismatch makes
`_execute_command` propagate the `TypeError` (it never yields BAD_REQUEST);
BAD_REQUEST is returned exactly when the arguments bind and the invoked
capability raises `ValueError`. -/
theorem execute_command_shape_mismatch (executor : List (String × ExecMethod))
    (command : String) (parms : Parms) (m : ExecMethod)
    (hm : (executor.find? (fun p => p.1 = command)).map (fun p => p.2) = some m) :
    (dispatch_outcome m parms = .typeError →
      execute_command executor command parms = Except.error PyExc.typeError) ∧
      (execute_command executor command parms = Except.ok StatusCodes.badRequest ↔
        dispatch_outcome m parms = .valueError) := by
  rw [execute_command_resolved executor command parms m hm]
  constructor
  · intro h
    rw [h]
  · cases hd : dispatch_outcome m parms <;> simp

/-- Witness for C5 (amended): the `volume` capability with a bad tuple shape
(TypeError propagates) and with a value-rejecting body (BAD_REQUEST). -/
theorem execute_command_shape_mismatch_witness :
    (([("volume", { params := ["db"], raisesValueError := true })] :
        List (String × ExecMethod)).find? (fun p => p.1 = "volume")).map (fun p => p.2) =
      some { params := ["db"], raisesValueError := true } ∧
      execute_command [("volume", { params := ["db"], raisesValueError := true })]
        "volume" (Parms.tuple [Value.rat 1, Value.rat 2]) = Except.error PyExc.typeError ∧
      execute_command [("volume", { params := ["db"], raisesValueError := true })]
        "volume" (Parms.scalar (Value.rat 1)) = Except.ok StatusCodes.badRequest := by
  have hm : ((([("volume", { params := ["db"], raisesValueError := true })] :
      List (String × ExecMethod)).find? (fun p => p.1 = "volume")).map (fun p => p.2)) =
      some { params := ["db"], raisesValueError := true } := by decide
  have h := execute_command_shape_mismatch
    [("volume", { params := ["db"], raisesValueError := true })] "volume"
    (Parms.tuple [Value.rat 1, Value.rat 2])
    { params := ["db"], raisesValueError := true } hm
  have h2 := execute_command_shape_mismatch
    [("volume", { params := ["db"], raisesValueError := true })] "volume"
    (Parms.scalar (Value.rat 1))
    { params := ["db"], raisesValueError := true } hm
  exact ⟨hm, h.1 (by decide), h2.2.mpr (by decide)⟩

/-! ## media_player.py — SELECT_SOURCE command branch -/

/-- Python truthiness of the values that reach the command handlers. -/
def pyTruthy (v : Value) : Bool :=
  match v with
  | .none => false
  | .str s => !s.isEmpty
  | .int n => decide (n ≠ 0)
  | .rat q => decide (q ≠ 0)
  | .bool b => b
  | .strList l => !l.isEmpty
  | .mState _ => true
  | .rState _ => true
  | .sState _ => true

/-- The `Commands.SELECT_SOURCE` arm of `TrinnovMediaPlayer.command`
(media_player.py lines 99-111): read the cached label table and the
`source` parameter; BAD_REQUEST when the table or the label is falsy;
otherwise reverse-look-up the first key whose label matches and dispatch
`executor.select_source(index)`.  The second component lists the dispatched
select calls. -/
def select_source_command (labels : List (String × String)) (params : Option Dict) :
    StatusCodes × List String :=
  let label_name : Value :=
    match params with
    | some p => (dget p "source").getD Value.none
    | none => Value.none
  if labels.isEmpty || !(pyTruthy label_name) then (.badRequest, [])
  else
    match labels.find? (fun p => Value.str p.2 = label_name) with
    | some p => (.ok, [p.1])
    | none => (.badRequest, [])

/-- C6: when the cached label table contains the requested label, SELECT_SOURCE
dispatches the underlying select with the corresponding index and returns OK;
when the label is absent (in particular when the table is empty) it returns
BAD_REQUEST and dispatches nothing. -/
theorem select_source_lookup (labels : List (String × String)) (label : String)
    (params : Dict) (hp : dget params "source" = some (Value.str label)) (hl : label ≠ "") :
    (∀ k v, labels.find? (fun p => Value.str p.2 = Value.str label) = some (k, v) →
      select_source_command labels (some params) = (StatusCodes.ok, [k])) ∧
      (labels.all (fun p => p.2 ≠ label) →
        select_source_command labels (some params) = (StatusCodes.badRequest, [])) := by
  have hie : label.isEmpty = false := by
    rw [Bool.eq_false_iff]
    intro ht
    exact hl ((String.isEmpty_iff label).mp ht)
  have htruthy : pyTruthy (Value.str label) = true := by
    simp [pyTruthy, hie]
  constructor
  · intro k v hfind
    have hne : labels.isEmpty = false := by
      cases labels with
      | nil => simp at hfind
      | cons a l => rfl
    simp only [select_source_command]
    simp only [hp, Option.getD_some, htruthy, hne, hfind]
    simp
  · intro habsent
    have hfind : labels.find? (fun p => Value.str p.2 = Value.str label) = none := by
      apply List.find?_eq_none.mpr
      intro p hmem
      have := List.all_eq_true.mp habsent p hmem
      simp only [decide_eq_true_eq] at this ⊢
      intro hcontra
      exact this (Value.str.inj hcontra)
    simp only [select_source_command]
    simp only [hp, Option.getD_some, htruthy, hfind]
    cases hne : labels.isEmpty <;> simp [hne]

/-- Witness for C6 at the spec's example table, with both a present and an
absent label. -/
theorem select_source_lookup_witness :
    select_source_command [("0", "HDMI1"), ("1", "HDMI2")]
        (some [("source", Value.str "HDMI2")]) = (StatusCodes.ok, ["1"]) ∧
      select_source_command [("0", "HDMI1"), ("1", "HDMI2")]
        (some [("source", Value.str "HDMI9")]) = (StatusCodes.badRequest, []) ∧
      select_source_command [] (some [("source", Value.str "HDMI2")]) =
        (StatusCodes.badRequest, []) := by
  have h2 := select_source_lookup [("0", "HDMI1"), ("1", "HDMI2")] "HDMI2"
    [("source", Value.str "HDMI2")] (by decide) (by decide)
  have h9 := select_source_lookup [("0", "HDMI1"), ("1", "HDMI2")] "HDMI9"
    [("source", Value.str "HDMI9")] (by decide) (by decide)
  have h0 := select_source_lookup [] "HDMI2"
    [("source", Value.str "HDMI2")] (by decide) (by decide)
  exact ⟨h2.1 "1" "HDMI2" (by decide), h9.2 (by decide), h0.2 (by decide)⟩

/-! ## media_player.py — filter_changed_attributes -/

theorem dget_dset_self (d : Dict) (k : String) (v : Value) :
    dget (dset d k v) k = some v := by
  induction d with
  | nil => simp [dget, dset, List.find?]
  | cons p rest ih =>
    by_cases h : p.1 = k
    · simp [dset, h, dget, List.find?]
    · simp only [dset, if_neg h]
      simpa [dget, List.find?, h] using ih

theorem dget_dset_ne (d : Dict) (k k2 : String) (v : Value) (h : k ≠ k2) :
    dget (dset d k v) k2 = dget d k2 := by
  induction d with
  | nil => simp [dget, dset, List.find?, h]
  | cons p rest ih =>
    by_cases hp : p.1 = k
    · have hpk2 : ¬ p.1 = k2 := by rw [hp]; exact h
      simp [dset, hp, dget, List.find?, h, hpk2]
    · simp only [dset, if_neg hp]
      by_cases hp2 : p.1 = k2
      · simp [dget, List.find?, hp2]
      · simpa [dget, List.find?, hp2] using ih

/-- The fixed key tuple iterated by
`TrinnovMediaPlayer.filter_changed_attributes`. -/
def mp_filter_keys : List String :=
  ["muted", "sound_mode", "sound_mode_list", "source", "source_list", "state", "volume"]

/-- The diff loop shared by the adapters: keep a key only when it occurs in
both the update and the snapshot and the values differ. -/
def diff_step (update snapshot : Dict) (acc : Dict) (key : String) : Dict :=
  match dget update key, dget snapshot key with
  | some uv, some sv => if uv ≠ sv then dset acc key uv else acc
  | _, _ => acc

/-- `TrinnovMediaPlayer.filter_changed_attributes`: overwrite the update's
SOUND_MODE_LIST from the device cache, diff the seven keys against the
snapshot, then — only when the computed change set carries STATE = OFF —
force SOURCE to `""` and SOURCE_LIST to `[]`. -/
def mp_filter (sound_modes : List (String × String)) (snapshot update0 : Dict) : Dict :=
  let update := dset update0 "sound_mode_list" (.strList (sound_modes.map (fun p => p.2)))
  let attributes := mp_filter_keys.foldl (diff_step update snapshot) []
  if dget attributes "state" = some (.mState .off) then
    dset (dset attributes "source" (.str "")) "source_list" (.strList [])
  else attributes

/-- A snapshot in which the media player is already off but shows a source
(the update below repeats STATE = OFF, so nothing differs). -/
def mp_snapshot_off : Dict :=
  [("muted", Value.bool false), ("sound_mode", Value.str ""),
    ("sound_mode_list", Value.strList []), ("source", Value.str "HDMI1"),
    ("source_list", Value.strList ["HDMI1"]), ("state", Value.mState MState.off),
    ("volume", Value.int (-20))]

/-- C7 counterexample: an incoming update that sets STATE = OFF while the
snapshot state is already OFF produces an empty filtered output — in
particular no `source = ""` and no `source_list = []` entries. -/
theorem off_update_can_skip_source_clearing :
    mp_filter [] mp_snapshot_off [("state", Value.mState MState.off)] = [] ∧
      dget (mp_filter [] mp_snapshot_off [("state", Value.mState MState.off)]) "source" =
        Option.none ∧
      dget (mp_filter [] mp_snapshot_off [("state", Value.mState MState.off)]) "source_list" =
        Option.none := by
  refine ⟨by decide, by decide, by decide⟩

/-- C7 as amended: whenever the computed change set itself carries
STATE = OFF (the snapshot state differed from the incoming OFF), the filtered
output contains `source = ""` and `source_list = []`, even when the input
update mentioned neither key. -/
theorem mp_filter_off_forces_source_empty (sound_modes : List (String × String))
    (snapshot update : Dict)
    (h : dget (mp_filter sound_modes snapshot update) "state" =
      some (Value.mState MState.off)) :
    dget (mp_filter sound_modes snapshot update) "source" = some (Value.str "") ∧
      dget (mp_filter sound_modes snapshot update) "source_list" =
        some (Value.strList []) := by
  simp only [mp_filter] at h ⊢
  set attributes := mp_filter_keys.foldl
    (diff_step (dset update "sound_mode_list"
      (.strList (sound_modes.map (fun p => p.2)))) snapshot) [] with hattr
  by_cases hoff : dget attributes "state" = some (Value.mState MState.off)
  · rw [if_pos hoff]
    constructor
    · rw [dget_dset_ne _ _ _ _ (by decide), dget_dset_self]
    · rw [dget_dset_self]
  · rw [if_neg hoff] at h
    exact absurd h hoff

/-- Witness for C7 (amended): snapshot state ON, update STATE = OFF. -/
theorem mp_filter_off_forces_source_empty_witness :
    dget (mp_filter [] (dset mp_snapshot_off "state" (Value.mState MState.on))
        [("state", Value.mState MState.off)]) "state" = some (Value.mState MState.off) ∧
      dget (mp_filter [] (dset mp_snapshot_off "state" (Value.mState MState.on))
        [("state", Value.mState MState.off)]) "source" = some (Value.str "") ∧
      dget (mp_filter [] (dset mp_snapshot_off "state" (Value.mState MState.on))
        [("state", Value.mState MState.off)]) "source_list" = some (Value.strList []) := by
  have h : dget (mp_filter [] (dset mp_snapshot_off "state" (Value.mState MState.on))
      [("state", Value.mState MState.off)]) "state" = some (Value.mState MState.off) := by
    decide
  have h2 := mp_filter_off_forces_source_empty []
    (dset mp_snapshot_off "state" (Value.mState MState.on))
    [("state", Value.mState MState.off)] h
  exact ⟨h, h2.1, h2.2⟩

/-! ## sensor.py — filter_changed_attributes -/

/-- `TrinnovSensor.filter_changed_attributes`: diff STATE and VALUE against
the snapshot, then — when the change set carries STATE — overwrite VALUE with
the string "unknown" if that state is UNKNOWN. -/
def sensor_filter (snapshot update : Dict) : Dict :=
  let attributes := ["state", "value"].foldl (diff_step update snapshot) []
  if dget attributes "state" = some (Value.sState SState.unknown) then
    dset attributes "value" (Value.str "unknown")
  else attributes

/-- C9: whenever the sensor adapter's changed set contains STATE = UNKNOWN,
it also contains VALUE = "unknown", regardless of any VALUE carried by the
incoming update. -/
theorem sensor_unknown_state_forces_value (snapshot update : Dict)
    (h : dget (sensor_filter snapshot update) "state" =
      some (Value.sState SState.unknown)) :
    dget (sensor_filter snapshot update) "value" = some (Value.str "unknown") := by
  simp only [sensor_filter] at h ⊢
  set attributes := ["state", "value"].foldl (diff_step update snapshot) [] with hattr
  by_cases hu : dget attributes "state" = some (Value.sState SState.unknown)
  · rw [if_pos hu]
    exact dget_dset_self _ _ _
  · rw [if_neg hu] at h
    exact absurd h hu

/-- Witness for C9: the sensor reports UNKNOWN while the update also carries
a fresh VALUE, which the filter overwrites with "unknown". -/
theorem sensor_unknown_state_forces_value_witness :
    dget (sensor_filter
        [("state", Value.sState SState.on), ("value", Value.str "5"),
          ("unit", Value.str "unknown")]
        [("state", Value.sState SState.unknown), ("value", Value.str "99")]) "state" =
      some (Value.sState SState.unknown) ∧
      dget (sensor_filter
        [("state", Value.sState SState.on), ("value", Value.str "5"),
          ("unit", Value.str "unknown")]
        [("state", Value.sState SState.unknown), ("value", Value.str "99")]) "value" =
      some (Value.str "unknown") := by
  have h : dget (sensor_filter
      [("state", Value.sState SState.on), ("value", Value.str "5"),
        ("unit", Value.str "unknown")]
      [("state", Value.sState SState.unknown), ("value", Value.str "99")]) "state" =
      some (Value.sState SState.unknown) := by decide
  exact ⟨h, sensor_unknown_state_forces_value _ _ h⟩

/-! ## remote.py — REMOTE_STATE_MAPPING and filter_changed_attributes -/

/-- `MediaStates(media_state)` with the surrounding try/except: a States
member (or its uppercase string value, since ucapi States is a str enum)
parses to itself; every other value raises ValueError, which the handler
catches and replaces with UNKNOWN. -/
def toMediaState (v : Value) : MState :=
  match v with
  | .mState s => s
  | .str "ON" => MState.on
  | .str "OFF" => MState.off
  | .str "STANDBY" => MState.standby
  | .str "PLAYING" => MState.playing
  | .str "PAUSED" => MState.paused
  | .str "BUFFERING" => MState.buffering
  | .str "UNAVAILABLE" => MState.unavailable
  | .str "UNKNOWN" => MState.unknown
  | _ => MState.unknown

/-- Is `v` one of the values `MediaStates(...)` accepts? -/
def knownMediaStateValue (v : Value) : Bool :=
  match v with
  | .mState _ => true
  | .str s => s = "ON" || s = "OFF" || s = "STANDBY" || s = "PLAYING" ||
      s = "PAUSED" || s = "BUFFERING" || s = "UNAVAILABLE" || s = "UNKNOWN"
  | _ => false

/-- remote.py lines 24-30. -/
def REMOTE_STATE_MAPPING : List (MState × RState) :=
  [(MState.off, RState.off), (MState.on, RState.on), (MState.standby, RState.off),
    (MState.unavailable, RState.unavailable), (MState.unknown, RState.unknown)]

/-- `REMOTE_STATE_MAPPING.get(media_state_enum, States.UNKNOWN)`. -/
def remote_map (m : MState) : RState :=
  (((REMOTE_STATE_MAPPING.find? (fun p => p.1 = m)).map (fun p => p.2)).getD
    RState.unknown)

/-- `TrinnovRemote.filter_changed_attributes`: when the update carries STATE,
parse it (UNKNOWN on failure), map it through REMOTE_STATE_MAPPING (UNKNOWN
default), and forward it only when it differs from the snapshot state. -/
def remote_filter (snapshot update : Dict) : Dict :=
  match dget update "state" with
  | some v =>
    let new_state := remote_map (toMediaState v)
    if dget snapshot "state" ≠ some (Value.rState new_state) then
      [("state", Value.rState new_state)]
    else []
  | Option.none => []

theorem toMediaState_of_not_known (v : Value) (hk : knownMediaStateValue v = false) :
    toMediaState v = MState.unknown := by
  cases v
  case mState s => simp [knownMediaStateValue] at hk
  case str s =>
    simp only [knownMediaStateValue, Bool.or_eq_false_iff, decide_eq_false_iff_not] at hk
    unfold toMediaState
    split <;> simp_all
  all_goals rfl

theorem remote_filter_eq_some (snapshot update : Dict) (v : Value)
    (hu : dget update "state" = some v) :
    remote_filter snapshot update =
      (if dget snapshot "state" ≠ some (Value.rState (remote_map (toMediaState v))) then
        [("state", Value.rState (remote_map (toMediaState v)))]
      else []) := by
  unfold remote_filter
  rw [hu]

theorem remote_filter_eq_none (snapshot update : Dict)
    (hu : dget update "state" = Option.none) :
    remote_filter snapshot update = [] := by
  unfold remote_filter
  rw [hu]

/-- C10: the remote adapter's filter is total over arbitrary state values —
anything that is not a known media-player state maps to the remote UNKNOWN
state instead of raising — and every state it outputs lies in
{ON, OFF, UNAVAILABLE, UNKNOWN}. -/
theorem remote_filter_total_and_codomain (snapshot update : Dict) :
    (∀ e ∈ remote_filter snapshot update, e.1 = "state" ∧
      (e.2 = Value.rState RState.on ∨ e.2 = Value.rState RState.off ∨
        e.2 = Value.rState RState.unavailable ∨ e.2 = Value.rState RState.unknown)) ∧
      (∀ v : Value, dget update "state" = some v → knownMediaStateValue v = false →
        dget snapshot "state" ≠ some (Value.rState RState.unknown) →
        remote_filter snapshot update = [("state", Value.rState RState.unknown)]) := by
  constructor
  · intro e he
    cases hu : dget update "state" with
    | none =>
      rw [remote_filter_eq_none snapshot update hu] at he
      simp at he
    | some v =>
      rw [remote_filter_eq_some snapshot update v hu] at he
      by_cases hne : dget snapshot "state" ≠ some (Value.rState (remote_map (toMediaState v)))
      · rw [if_pos hne] at he
        simp only [List.mem_singleton] at he
        subst he
        refine ⟨rfl, ?_⟩
        cases hr : remote_map (toMediaState v) <;> simp
      · rw [if_neg hne] at he
        simp at he
  · intro v hv hk hsnap
    rw [remote_filter_eq_some snapshot update v hv]
    have hmap : remote_map (toMediaState v) = RState.unknown := by
      rw [toMediaState_of_not_known v hk]
      decide
    simp only [hmap]
    rw [if_pos hsnap]

/-- Witness for C10: a numeric state value (not a media-player state) is
mapped to the remote UNKNOWN state without raising. -/
theorem remote_filter_total_and_codomain_witness :
    remote_filter [("state", Value.rState RState.off)] [("state", Value.rat 5)] =
        [("state", Value.rState RState.unknown)] ∧
      (("state", Value.rState RState.unknown) ∈
          remote_filter [("state", Value.rState RState.off)] [("state", Value.rat 5)] →
        (("state", Value.rState RState.unknown).1 = "state" ∧
          ((("state", Value.rState RState.unknown)).2 = Value.rState RState.on ∨
            (("state", Value.rState RState.unknown)).2 = Value.rState RState.off ∨
            (("state", Value.rState RState.unknown)).2 = Value.rState RState.unavailable ∨
            (("state", Value.rState RState.unknown)).2 = Value.rState RState.unknown))) := by
  have h := remote_filter_total_and_codomain [("state", Value.rState RState.off)]
    [("state", Value.rat 5)]
  refine ⟨h.2 (Value.rat 5) (by decide) (by decide) (by decide), h.1 _⟩
